import Mathlib

/-!
Shallow embedding of src/personal_finance_design.py.

Python objects are modelled as immutable Lean structures; a mutating method
becomes a function returning the updated structure, and a method that can
raise ValueError returns Except String carrying the exact message string the
source raises.  Because every raising method in the source performs its
checks before any mutation, an error result faithfully models "exception
raised, object state unchanged".

Balances, amounts and limits are modelled as integers (the example driver
uses Python ints throughout); dictionaries are modelled as association
lists with first-match lookup and in-place overwrite, matching dict
assignment semantics for string keys.
-/

deriving instance DecidableEq for Except

/-- Kind tag for the three concrete Transaction classes. -/
inductive TransKind where
  | income
  | expense
  | transfer
  deriving DecidableEq

/-- Observable content of a transaction object as it is stored in an
account history list by add_transaction. -/
structure TransRecord where
  kind : TransKind
  amount : Int
  deriving DecidableEq

/-- Base class Account: account id, balance, password, holder name and the
transaction history list. -/
structure Account where
  account_id : Int
  balance : Int
  account_password : String
  account_holder : String
  transactions : List TransRecord
  deriving DecidableEq

/-- Account.deposit: raises ValueError for amount <= 0, otherwise adds the
amount to the balance. -/
def Account.deposit (a : Account) (amount : Int) : Except String Account :=
  if amount ≤ 0 then .error "Amount must be positive"
  else .ok { a with balance := a.balance + amount }

/-- Account.withdraw: raises ValueError for amount <= 0 or amount greater
than the balance, otherwise subtracts the amount from the balance. -/
def Account.withdraw (a : Account) (amount : Int) : Except String Account :=
  if amount ≤ 0 then .error "Amount must be positive"
  else if amount > a.balance then .error "Insufficient balance"
  else .ok { a with balance := a.balance - amount }

/-- Account.add_transaction: appends the transaction to the history list. -/
def Account.add_transaction (a : Account) (t : TransRecord) : Account :=
  { a with transactions := a.transactions ++ [t] }

/-- Account.get_balance. -/
def Account.get_balance (a : Account) : Int :=
  a.balance

/-- SavingAccount extends Account with a minimum balance. -/
structure SavingAccount where
  base : Account
  min_balance : Int
  deriving DecidableEq

/-- SavingAccount.withdraw: first the subclass check (balance - amount
below min_balance raises), then delegation to the base class withdraw. -/
def SavingAccount.withdraw (s : SavingAccount) (amount : Int) :
    Except String SavingAccount :=
  if s.base.balance - amount < s.min_balance then
    .error "Minimum balance rule violated"
  else
    match s.base.withdraw amount with
    | .error e => .error e
    | .ok b => .ok { s with base := b }

/-- ExpensesAccount extends Account with a monthly limit and a cumulative
monthly withdrawal counter (0 at construction). -/
structure ExpensesAccount where
  base : Account
  month_limit : Int
  monthly_withdraw : Int
  deriving DecidableEq

/-- ExpensesAccount.withdraw: first the subclass check (counter + amount
above month_limit raises), then delegation to the base class withdraw,
then the counter increment. -/
def ExpensesAccount.withdraw (e : ExpensesAccount) (amount : Int) :
    Except String ExpensesAccount :=
  if e.monthly_withdraw + amount > e.month_limit then
    .error "Monthly limit exceeded"
  else
    match e.base.withdraw amount with
    | .error msg => .error msg
    | .ok b => .ok { e with base := b, monthly_withdraw := e.monthly_withdraw + amount }

/-- A reference to an account of any of the three classes; method calls on
it dispatch dynamically, as in Python. -/
inductive AccountObj where
  | plain (a : Account)
  | saving (s : SavingAccount)
  | expenses (e : ExpensesAccount)
  deriving DecidableEq

/-- Dynamic dispatch of withdraw: each subclass overrides it. -/
def AccountObj.withdraw : AccountObj → Int → Except String AccountObj
  | .plain a, amount => match a.withdraw amount with
      | .error e => .error e
      | .ok a' => .ok (.plain a')
  | .saving s, amount => match s.withdraw amount with
      | .error e => .error e
      | .ok s' => .ok (.saving s')
  | .expenses e, amount => match e.withdraw amount with
      | .error msg => .error msg
      | .ok e' => .ok (.expenses e')

/-- deposit is not overridden: every variant runs the base class deposit. -/
def AccountObj.deposit : AccountObj → Int → Except String AccountObj
  | .plain a, amount => match a.deposit amount with
      | .error e => .error e
      | .ok a' => .ok (.plain a')
  | .saving s, amount => match s.base.deposit amount with
      | .error e => .error e
      | .ok b => .ok (.saving { s with base := b })
  | .expenses e, amount => match e.base.deposit amount with
      | .error msg => .error msg
      | .ok b => .ok (.expenses { e with base := b })

/-- add_transaction is not overridden either. -/
def AccountObj.add_transaction : AccountObj → TransRecord → AccountObj
  | .plain a, t => .plain (a.add_transaction t)
  | .saving s, t => .saving { s with base := s.base.add_transaction t }
  | .expenses e, t => .expenses { e with base := e.base.add_transaction t }

/-- Current balance of the underlying Account object. -/
def AccountObj.balance : AccountObj → Int
  | .plain a => a.balance
  | .saving s => s.base.balance
  | .expenses e => e.base.balance

/-- Transaction history of the underlying Account object. -/
def AccountObj.transactions : AccountObj → List TransRecord
  | .plain a => a.transactions
  | .saving s => s.base.transactions
  | .expenses e => e.base.transactions

/-- Modelled from the amended claim, to be compared with the withdraw of
each variant: the error message a withdraw of a non-positive amount
raises.  The subclass precondition check runs first, so its error takes
precedence; otherwise the base amount check raises InvalidAmount. -/
def nonpositiveWithdrawError : AccountObj → Int → String
  | .plain _, _ => "Amount must be positive"
  | .saving s, amount =>
    if s.base.balance - amount < s.min_balance then "Minimum balance rule violated"
    else "Amount must be positive"
  | .expenses e, amount =>
    if e.monthly_withdraw + amount > e.month_limit then "Monthly limit exceeded"
    else "Amount must be positive"

/-- TransferTransaction: holds the transfer amount; the source and
destination account references are passed to process_transaction
explicitly, since accounts are threaded as values here. -/
structure TransferTransaction where
  amount : Int
  deriving DecidableEq

/-- The record this transaction object contributes to a history list. -/
def TransferTransaction.toRecord (tr : TransferTransaction) : TransRecord :=
  ⟨TransKind.transfer, tr.amount⟩

/-- TransferTransaction.validate: raises ValueError for amount <= 0. -/
def TransferTransaction.validate (tr : TransferTransaction) : Except String Unit :=
  if tr.amount ≤ 0 then .error "Amount must be positive" else .ok ()

/-- TransferTransaction.process_transaction for two distinct account
objects: validate, withdraw from the source, deposit into the destination,
then record the transaction in both histories.  Any raise propagates and
the remaining steps do not run. -/
def TransferTransaction.process_transaction (tr : TransferTransaction)
    (from_account to_account : AccountObj) :
    Except String (AccountObj × AccountObj) :=
  match tr.validate with
  | .error e => .error e
  | .ok _ =>
    match from_account.withdraw tr.amount with
    | .error e => .error e
    | .ok f =>
      match to_account.deposit tr.amount with
      | .error e => .error e
      | .ok t => .ok (f.add_transaction tr.toRecord, t.add_transaction tr.toRecord)

/-- TransferTransaction.process_transaction in the aliased case where the
same account object is both source and destination: every step reads and
writes the one object, and the record is appended twice. -/
def TransferTransaction.process_transaction_self (tr : TransferTransaction)
    (account : AccountObj) : Except String AccountObj :=
  match tr.validate with
  | .error e => .error e
  | .ok _ =>
    match account.withdraw tr.amount with
    | .error e => .error e
    | .ok a₁ =>
      match a₁.deposit tr.amount with
      | .error e => .error e
      | .ok a₂ => .ok ((a₂.add_transaction tr.toRecord).add_transaction tr.toRecord)

/-- First-match lookup in an association list, as Python dict membership
and subscription behave for string keys. -/
def dictGet? (d : List (String × Int)) (k : String) : Option Int :=
  match d with
  | [] => none
  | (k₀, v₀) :: rest => if k₀ = k then some v₀ else dictGet? rest k

/-- Dict assignment: overwrite the existing entry for the key, or append a
new entry. -/
def dictInsert (d : List (String × Int)) (k : String) (v : Int) :
    List (String × Int) :=
  match d with
  | [] => [(k, v)]
  | (k₀, v₀) :: rest =>
    if k₀ = k then (k, v) :: rest else (k₀, v₀) :: dictInsert rest k v

/-- BudgetManager: the category limit dict and the spending dict, both
empty at construction. -/
structure BudgetManager where
  category_limits : List (String × Int)
  spending : List (String × Int)
  deriving DecidableEq

/-- The freshly constructed BudgetManager. -/
def BudgetManager.initial : BudgetManager :=
  ⟨[], []⟩

/-- BudgetManager.set_budget_limit: store the limit and reset the spend
counter of the category to 0. -/
def BudgetManager.set_budget_limit (m : BudgetManager) (category : String)
    (limit : Int) : BudgetManager :=
  { category_limits := dictInsert m.category_limits category limit
    spending := dictInsert m.spending category 0 }

/-- BudgetManager.add_expense: raise ValueError when the category is not a
key of the spending dict; otherwise add the amount to the spend counter of
the category, then look the limit up and report whether the warning line
is printed, namely exactly when the new spend exceeds the limit.  The Bool
in the result records that side-channel warning.  A missing limit key
would raise KeyError in the source (after the spending dict was already
updated); it is modelled as the error string KeyError, and the key
agreement invariant below shows this case is unreachable, so collapsing it
to a plain error loses no reachable behaviour. -/
def BudgetManager.add_expense (m : BudgetManager) (category : String)
    (amount : Int) : Except String (BudgetManager × Bool) :=
  match dictGet? m.spending category with
  | none => .error "Category not found"
  | some s =>
    match dictGet? m.category_limits category with
    | none => .error "KeyError"
    | some limit =>
      .ok ({ m with spending := dictInsert m.spending category (s + amount) },
        decide (s + amount > limit))

/-- BudgetManager.get_budget_status: the spending map (the defensive copy
is the identity in a value semantics). -/
def BudgetManager.get_budget_status (m : BudgetManager) : List (String × Int) :=
  m.spending

/-- A call made by a caller against a BudgetManager. -/
inductive BudgetOp where
  | setLimit (category : String) (limit : Int)
  | addExpense (category : String) (amount : Int)
  deriving DecidableEq

/-- Apply one call: a raising add_expense leaves the manager unchanged
(the exception propagates to the caller before any mutation). -/
def BudgetManager.applyOp (m : BudgetManager) : BudgetOp → BudgetManager
  | .setLimit c l => m.set_budget_limit c l
  | .addExpense c a =>
    match m.add_expense c a with
    | .ok (m', _) => m'
    | .error _ => m

/-- Run a sequence of calls left to right. -/
def BudgetManager.runOps (m : BudgetManager) : List BudgetOp → BudgetManager
  | [] => m
  | op :: rest => (m.applyOp op).runOps rest

/-! Helper lemmas about the account operations. -/

theorem Account.deposit_ok_eq (a a' : Account) (amount : Int)
    (h : a.deposit amount = .ok a') :
    a' = { a with balance := a.balance + amount } ∧ 0 < amount := by
  unfold Account.deposit at h
  split at h
  · exact absurd h (by simp)
  · rename_i hle
    injection h with h
    exact ⟨h.symm, by omega⟩

theorem Account.deposit_pos (a : Account) (amount : Int) (hpos : 0 < amount) :
    a.deposit amount = .ok { a with balance := a.balance + amount } := by
  unfold Account.deposit
  split
  · omega
  · rfl

theorem Account.withdraw_ok_eq (a a' : Account) (amount : Int)
    (h : a.withdraw amount = .ok a') :
    a' = { a with balance := a.balance - amount } ∧ 0 < amount ∧ amount ≤ a.balance := by
  unfold Account.withdraw at h
  split at h
  · exact absurd h (by simp)
  · split at h
    · exact absurd h (by simp)
    · rename_i h₁ h₂
      injection h with h
      exact ⟨h.symm, by omega, by omega⟩

theorem Account.withdraw_pos (a : Account) (amount : Int) (hpos : 0 < amount)
    (hle : amount ≤ a.balance) :
    a.withdraw amount = .ok { a with balance := a.balance - amount } := by
  unfold Account.withdraw
  split
  · omega
  · split
    · omega
    · rfl

theorem SavingAccount.withdraw_ok_saving (s s' : SavingAccount) (amount : Int)
    (h : s.withdraw amount = .ok s') :
    s' = { s with base := { s.base with balance := s.base.balance - amount } } ∧
      0 < amount ∧ amount ≤ s.base.balance ∧
      s.min_balance ≤ s.base.balance - amount := by
  unfold SavingAccount.withdraw at h
  split at h
  · exact absurd h (by simp)
  · rename_i hmin
    split at h
    · exact absurd h (by simp)
    · rename_i b hb
      injection h with h
      obtain ⟨hb', hpos, hle⟩ := Account.withdraw_ok_eq s.base b amount hb
      subst hb'
      exact ⟨h.symm, hpos, hle, by omega⟩

theorem ExpensesAccount.withdraw_ok_expenses (e e' : ExpensesAccount) (amount : Int)
    (h : e.withdraw amount = .ok e') :
    e' = { e with base := { e.base with balance := e.base.balance - amount },
                  monthly_withdraw := e.monthly_withdraw + amount } ∧
      0 < amount ∧ amount ≤ e.base.balance ∧
      e.monthly_withdraw + amount ≤ e.month_limit := by
  unfold ExpensesAccount.withdraw at h
  split at h
  · exact absurd h (by simp)
  · rename_i hcap
    split at h
    · exact absurd h (by simp)
    · rename_i b hb
      injection h with h
      obtain ⟨hb', hpos, hle⟩ := Account.withdraw_ok_eq e.base b amount hb
      subst hb'
      exact ⟨h.symm, hpos, hle, by omega⟩


theorem AccountObj.withdraw_ok_obj (o o' : AccountObj) (amount : Int)
    (h : o.withdraw amount = .ok o') :
    o'.balance = o.balance - amount ∧ o'.transactions = o.transactions ∧
      0 < amount := by
  cases o with
  | plain a =>
    simp only [AccountObj.withdraw] at h
    split at h
    · exact absurd h (by simp)
    · rename_i a₁ ha
      injection h with h
      obtain ⟨ha', hpos, _⟩ := Account.withdraw_ok_eq a a₁ amount ha
      subst ha'
      subst h
      exact ⟨rfl, rfl, hpos⟩
  | saving s =>
    simp only [AccountObj.withdraw] at h
    split at h
    · exact absurd h (by simp)
    · rename_i s₁ hs
      injection h with h
      obtain ⟨hs', hpos, _, _⟩ := SavingAccount.withdraw_ok_saving s s₁ amount hs
      subst hs'
      subst h
      exact ⟨rfl, rfl, hpos⟩
  | expenses e =>
    simp only [AccountObj.withdraw] at h
    split at h
    · exact absurd h (by simp)
    · rename_i e₁ he
      injection h with h
      obtain ⟨he', hpos, _, _⟩ := ExpensesAccount.withdraw_ok_expenses e e₁ amount he
      subst he'
      subst h
      exact ⟨rfl, rfl, hpos⟩

theorem AccountObj.deposit_ok_obj (o o' : AccountObj) (amount : Int)
    (h : o.deposit amount = .ok o') :
    o'.balance = o.balance + amount ∧ o'.transactions = o.transactions := by
  cases o with
  | plain a =>
    simp only [AccountObj.deposit] at h
    split at h
    · exact absurd h (by simp)
    · rename_i a₁ ha
      injection h with h
      obtain ⟨ha', _⟩ := Account.deposit_ok_eq a a₁ amount ha
      subst ha'
      subst h
      exact ⟨rfl, rfl⟩
  | saving s =>
    simp only [AccountObj.deposit] at h
    split at h
    · exact absurd h (by simp)
    · rename_i b hb
      injection h with h
      obtain ⟨hb', _⟩ := Account.deposit_ok_eq s.base b amount hb
      subst hb'
      subst h
      exact ⟨rfl, rfl⟩
  | expenses e =>
    simp only [AccountObj.deposit] at h
    split at h
    · exact absurd h (by simp)
    · rename_i b hb
      injection h with h
      obtain ⟨hb', _⟩ := Account.deposit_ok_eq e.base b amount hb
      subst hb'
      subst h
      exact ⟨rfl, rfl⟩

theorem AccountObj.deposit_pos_ok (o : AccountObj) (amount : Int)
    (hpos : 0 < amount) :
    ∃ o', o.deposit amount = .ok o' := by
  cases o with
  | plain a =>
    refine ⟨.plain { a with balance := a.balance + amount }, ?_⟩
    simp only [AccountObj.deposit]
    rw [Account.deposit_pos a amount hpos]
  | saving s =>
    refine ⟨.saving { s with base := { s.base with balance := s.base.balance + amount } }, ?_⟩
    simp only [AccountObj.deposit]
    rw [Account.deposit_pos s.base amount hpos]
  | expenses e =>
    refine ⟨.expenses { e with base := { e.base with balance := e.base.balance + amount } }, ?_⟩
    simp only [AccountObj.deposit]
    rw [Account.deposit_pos e.base amount hpos]

theorem AccountObj.add_transaction_balance (o : AccountObj) (t : TransRecord) :
    (o.add_transaction t).balance = o.balance := by
  cases o <;> rfl

theorem AccountObj.add_transaction_transactions (o : AccountObj) (t : TransRecord) :
    (o.add_transaction t).transactions = o.transactions ++ [t] := by
  cases o <;> rfl

/-! Claim theorems about the account classes. -/

/-- C4: Account.withdraw raises InvalidAmount for amount less or equal 0,
raises InsufficientBalance for a positive amount above the balance, and
otherwise decreases the balance by exactly the amount; the error results
carry no new state, so the balance is unchanged on failure. -/
theorem account_withdraw_cases (a : Account) (amount : Int) :
    (amount ≤ 0 → a.withdraw amount = .error "Amount must be positive") ∧
    (0 < amount → a.balance < amount →
        a.withdraw amount = .error "Insufficient balance") ∧
    (0 < amount → amount ≤ a.balance →
        a.withdraw amount = .ok { a with balance := a.balance - amount }) := by
  refine ⟨?_, ?_, ?_⟩
  · intro h
    unfold Account.withdraw
    rw [if_pos h]
  · intro h₁ h₂
    unfold Account.withdraw
    rw [if_neg (by omega), if_pos (by omega)]
  · intro h₁ h₂
    exact Account.withdraw_pos a amount h₁ h₂

/-- C4 witness at balance 100: amount -1 raises InvalidAmount, amount 200
raises InsufficientBalance, amount 30 leaves balance 70. -/
theorem account_withdraw_cases_witness :
    Account.withdraw ⟨1, 100, "pw", "holder", []⟩ (-1) =
        .error "Amount must be positive" ∧
      Account.withdraw ⟨1, 100, "pw", "holder", []⟩ 200 =
        .error "Insufficient balance" ∧
      Account.withdraw ⟨1, 100, "pw", "holder", []⟩ 30 =
        .ok ⟨1, 70, "pw", "holder", []⟩ :=
  ⟨(account_withdraw_cases ⟨1, 100, "pw", "holder", []⟩ (-1)).1 (by decide),
   (account_withdraw_cases ⟨1, 100, "pw", "holder", []⟩ 200).2.1 (by decide) (by decide),
   (account_withdraw_cases ⟨1, 100, "pw", "holder", []⟩ 30).2.2 (by decide) (by decide)⟩

/-- C2: SavingAccount.withdraw raises MinimumBalanceViolation whenever
balance - amount is below min_balance (balance unchanged, no new state);
a positive amount within the balance that lands exactly on min_balance
succeeds; and every successful withdrawal leaves at least min_balance. -/
theorem saving_withdraw_min_balance (s : SavingAccount) (amount : Int) :
    (s.base.balance - amount < s.min_balance →
        s.withdraw amount = .error "Minimum balance rule violated") ∧
    (0 < amount → amount ≤ s.base.balance →
        s.base.balance - amount = s.min_balance →
        ∃ s', s.withdraw amount = .ok s') ∧
    (∀ s', s.withdraw amount = .ok s' → s.min_balance ≤ s'.base.balance) := by
  refine ⟨?_, ?_, ?_⟩
  · intro hlt
    unfold SavingAccount.withdraw
    rw [if_pos hlt]
  · intro hpos hle heq
    refine ⟨{ s with base := { s.base with balance := s.base.balance - amount } }, ?_⟩
    unfold SavingAccount.withdraw
    rw [if_neg (by omega)]
    rw [Account.withdraw_pos s.base amount hpos hle]
  · intro s' h
    obtain ⟨hs', hpos, hle, hmin⟩ := SavingAccount.withdraw_ok_saving s s' amount h
    subst hs'
    exact hmin

/-- C2 witness at balance 5000, min_balance 1000: withdrawing 4500 raises
the minimum balance error, withdrawing 4000 lands exactly on 1000 and
succeeds, and the successful result shows at least the minimum balance. -/
theorem saving_withdraw_min_balance_witness :
    SavingAccount.withdraw ⟨⟨1, 5000, "pw", "holder", []⟩, 1000⟩ 4500 =
        .error "Minimum balance rule violated" ∧
      (∃ s', SavingAccount.withdraw ⟨⟨1, 5000, "pw", "holder", []⟩, 1000⟩ 4000 = .ok s') ∧
      (1000 : Int) ≤ (SavingAccount.mk ⟨1, 1000, "pw", "holder", []⟩ 1000).base.balance :=
  ⟨(saving_withdraw_min_balance ⟨⟨1, 5000, "pw", "holder", []⟩, 1000⟩ 4500).1 (by decide),
   (saving_withdraw_min_balance ⟨⟨1, 5000, "pw", "holder", []⟩, 1000⟩ 4000).2.1
     (by decide) (by decide) (by decide),
   (saving_withdraw_min_balance ⟨⟨1, 5000, "pw", "holder", []⟩, 1000⟩ 4000).2.2
     ⟨⟨1, 1000, "pw", "holder", []⟩, 1000⟩ (by decide)⟩

/-- C3: ExpensesAccount.withdraw raises MonthlyLimitExceeded when the
counter plus the amount passes month_limit (no new state: balance and
counter unchanged); within the cap a positive amount within the balance
decreases the balance and increases the counter by the amount; and when
the base checks fail the call raises, so the counter is again unchanged. -/
theorem expenses_withdraw_month_limit (e : ExpensesAccount) (amount : Int) :
    (e.monthly_withdraw + amount > e.month_limit →
        e.withdraw amount = .error "Monthly limit exceeded") ∧
    (e.monthly_withdraw + amount ≤ e.month_limit → 0 < amount →
        amount ≤ e.base.balance →
        e.withdraw amount = .ok { e with
          base := { e.base with balance := e.base.balance - amount }
          monthly_withdraw := e.monthly_withdraw + amount }) ∧
    (e.monthly_withdraw + amount ≤ e.month_limit →
        (amount ≤ 0 ∨ amount > e.base.balance) →
        ∃ msg, e.withdraw amount = .error msg) := by
  refine ⟨?_, ?_, ?_⟩
  · intro hgt
    unfold ExpensesAccount.withdraw
    rw [if_pos hgt]
  · intro hle hpos hbal
    unfold ExpensesAccount.withdraw
    rw [if_neg (by omega)]
    rw [Account.withdraw_pos e.base amount hpos hbal]
  · intro hle hfail
    by_cases h0 : amount ≤ 0
    · refine ⟨"Amount must be positive", ?_⟩
      unfold ExpensesAccount.withdraw
      rw [if_neg (by omega)]
      unfold Account.withdraw
      rw [if_pos h0]
    · have hf : e.base.balance < amount := by
        rcases hfail with h | h
        · omega
        · omega
      refine ⟨"Insufficient balance", ?_⟩
      unfold ExpensesAccount.withdraw
      rw [if_neg (by omega)]
      unfold Account.withdraw
      rw [if_neg (by omega), if_pos hf]

/-- C3 witness at balance 3000, month_limit 2000, counter 0: withdrawing
2500 raises the cap error; withdrawing 1000 leaves balance 2000 and
counter 1000; withdrawing 0 (within the cap) raises a base error. -/
theorem expenses_withdraw_month_limit_witness :
    ExpensesAccount.withdraw ⟨⟨2, 3000, "pw", "holder", []⟩, 2000, 0⟩ 2500 =
        .error "Monthly limit exceeded" ∧
      ExpensesAccount.withdraw ⟨⟨2, 3000, "pw", "holder", []⟩, 2000, 0⟩ 1000 =
        .ok ⟨⟨2, 2000, "pw", "holder", []⟩, 2000, 1000⟩ ∧
      (∃ msg, ExpensesAccount.withdraw ⟨⟨2, 3000, "pw", "holder", []⟩, 2000, 0⟩ 0 =
        .error msg) :=
  ⟨(expenses_withdraw_month_limit ⟨⟨2, 3000, "pw", "holder", []⟩, 2000, 0⟩ 2500).1 (by decide),
   (expenses_withdraw_month_limit ⟨⟨2, 3000, "pw", "holder", []⟩, 2000, 0⟩ 1000).2.1
     (by decide) (by decide) (by decide),
   (expenses_withdraw_month_limit ⟨⟨2, 3000, "pw", "holder", []⟩, 2000, 0⟩ 0).2.2
     (by decide) (Or.inl (by decide))⟩

/-- C5 counterexample: a SavingAccount constructed with balance 0 and
min_balance 100 rejects the non-positive amount 0 with the minimum balance
error, not with InvalidAmount, because the subclass check runs first. -/
theorem nonpositive_amount_rejected_cex :
    SavingAccount.withdraw ⟨⟨1, 0, "pw", "holder", []⟩, 100⟩ 0 =
        .error "Minimum balance rule violated" ∧
      SavingAccount.withdraw ⟨⟨1, 0, "pw", "holder", []⟩, 100⟩ 0 ≠
        .error "Amount must be positive" := by
  exact ⟨by decide, by decide⟩

/-- C5 amended: for every account variant and non-positive amount,
deposit raises InvalidAmount and withdraw raises (no new state, balance
unchanged); the withdraw error is exactly InvalidAmount unless the
subclass precondition check, which runs first, already fails, in which
case exactly that subclass error is raised instead, as the function
nonpositiveWithdrawError states. -/
theorem nonpositive_amount_rejected (o : AccountObj) (amount : Int)
    (hle : amount ≤ 0) :
    o.deposit amount = .error "Amount must be positive" ∧
      o.withdraw amount = .error (nonpositiveWithdrawError o amount) := by
  constructor
  · cases o with
    | plain a =>
      simp only [AccountObj.deposit]
      unfold Account.deposit
      rw [if_pos hle]
    | saving s =>
      simp only [AccountObj.deposit]
      unfold Account.deposit
      rw [if_pos hle]
    | expenses e =>
      simp only [AccountObj.deposit]
      unfold Account.deposit
      rw [if_pos hle]
  · cases o with
    | plain a =>
      simp only [AccountObj.withdraw, nonpositiveWithdrawError]
      unfold Account.withdraw
      rw [if_pos hle]
    | saving s =>
      simp only [AccountObj.withdraw, nonpositiveWithdrawError]
      unfold SavingAccount.withdraw
      by_cases hmin : s.base.balance - amount < s.min_balance
      · rw [if_pos hmin, if_pos hmin]
      · rw [if_neg hmin, if_neg hmin]
        unfold Account.withdraw
        rw [if_pos hle]
    | expenses e =>
      simp only [AccountObj.withdraw, nonpositiveWithdrawError]
      unfold ExpensesAccount.withdraw
      by_cases hcap : e.monthly_withdraw + amount > e.month_limit
      · rw [if_pos hcap, if_pos hcap]
      · rw [if_neg hcap, if_neg hcap]
        unfold Account.withdraw
        rw [if_pos hle]

/-- C5 witness: a plain account with balance 50 rejects deposit and
withdraw of 0 with InvalidAmount, and a SavingAccount with balance 0 and
min_balance 100 rejects withdraw of 0 with the minimum balance error, the
subclass branch of the case analysis. -/
theorem nonpositive_amount_rejected_witness :
    ((AccountObj.plain ⟨1, 50, "pw", "holder", []⟩).deposit 0 =
        .error "Amount must be positive" ∧
      (AccountObj.plain ⟨1, 50, "pw", "holder", []⟩).withdraw 0 =
        .error (nonpositiveWithdrawError (AccountObj.plain ⟨1, 50, "pw", "holder", []⟩) 0)) ∧
    ((AccountObj.saving ⟨⟨1, 0, "pw", "holder", []⟩, 100⟩).deposit 0 =
        .error "Amount must be positive" ∧
      (AccountObj.saving ⟨⟨1, 0, "pw", "holder", []⟩, 100⟩).withdraw 0 =
        .error "Minimum balance rule violated") :=
  ⟨nonpositive_amount_rejected (AccountObj.plain ⟨1, 50, "pw", "holder", []⟩) 0 (by decide),
   (nonpositive_amount_rejected (AccountObj.saving ⟨⟨1, 0, "pw", "holder", []⟩, 100⟩) 0
       (by decide)).1,
   ((nonpositive_amount_rejected (AccountObj.saving ⟨⟨1, 0, "pw", "holder", []⟩, 100⟩) 0
       (by decide)).2).trans (by decide)⟩

/-- C8 counterexample: a plain Account (no subclass constraints at all)
constructed with balance -5: deposit of 3 succeeds and moves the balance
to -2, and the following withdraw of 3 raises InsufficientBalance, so the
balance stays -2 and is not returned to -5. -/
theorem deposit_then_withdraw_inverse_cex :
    (AccountObj.plain ⟨1, -5, "pw", "holder", []⟩).deposit 3 =
        .ok (AccountObj.plain ⟨1, -2, "pw", "holder", []⟩) ∧
      (AccountObj.plain ⟨1, -2, "pw", "holder", []⟩).withdraw 3 =
        .error "Insufficient balance" := by
  exact ⟨by decide, by decide⟩

/-- C8 amended: for every account variant and positive amount, deposit of
the amount succeeds, and whenever the following withdraw of the same
amount succeeds (rather than only not violating subclass constraints: the
base insufficient-balance check can also fail, from a negative starting
balance), the balance returns to its original value. -/
theorem deposit_then_withdraw_inverse (o : AccountObj) (amount : Int)
    (hpos : 0 < amount) :
    ∃ o₁, o.deposit amount = .ok o₁ ∧
      ∀ o₂, o₁.withdraw amount = .ok o₂ → o₂.balance = o.balance := by
  obtain ⟨o₁, h₁⟩ := AccountObj.deposit_pos_ok o amount hpos
  refine ⟨o₁, h₁, ?_⟩
  intro o₂ h₂
  obtain ⟨hb₁, _⟩ := AccountObj.deposit_ok_obj o o₁ amount h₁
  obtain ⟨hb₂, _, _⟩ := AccountObj.withdraw_ok_obj o₁ o₂ amount h₂
  omega

/-- C8 witness: a plain account with balance 10, deposit of 4 then
withdraw of 4, back to balance 10. -/
theorem deposit_then_withdraw_inverse_witness :
    ∃ o₁, (AccountObj.plain ⟨1, 10, "pw", "holder", []⟩).deposit 4 = .ok o₁ ∧
      ∀ o₂, o₁.withdraw 4 = .ok o₂ →
        o₂.balance = (AccountObj.plain ⟨1, 10, "pw", "holder", []⟩).balance :=
  deposit_then_withdraw_inverse (AccountObj.plain ⟨1, 10, "pw", "holder", []⟩) 4 (by decide)

/-- C1: a successfully processed TransferTransaction decreases the source
balance by the amount, increases the destination balance by the amount,
and appends the transaction record to both histories; and whenever the
source withdraw step raises (non-positive amount, insufficient balance,
or a subclass check), process_transaction raises as well, so no deposit
occurs, no record is added, and both account objects are unchanged. -/
theorem transfer_moves_amount (tr : TransferTransaction) (f t : AccountObj) :
    (∀ f' t', tr.process_transaction f t = .ok (f', t') →
        f'.balance = f.balance - tr.amount ∧
        t'.balance = t.balance + tr.amount ∧
        f'.transactions = f.transactions ++ [tr.toRecord] ∧
        t'.transactions = t.transactions ++ [tr.toRecord]) ∧
    (∀ e, f.withdraw tr.amount = .error e →
        ∃ msg, tr.process_transaction f t = .error msg) := by
  constructor
  · intro f' t' h
    unfold TransferTransaction.process_transaction at h
    split at h
    · exact absurd h (by simp)
    · split at h
      · exact absurd h (by simp)
      · rename_i f₁ hf
        split at h
        · exact absurd h (by simp)
        · rename_i t₁ ht
          injection h with h
          injection h with h1 h2
          subst h1
          subst h2
          obtain ⟨hfb, hft, _⟩ := AccountObj.withdraw_ok_obj f f₁ tr.amount hf
          obtain ⟨htb, htt⟩ := AccountObj.deposit_ok_obj t t₁ tr.amount ht
          refine ⟨?_, ?_, ?_, ?_⟩
          · rw [AccountObj.add_transaction_balance, hfb]
          · rw [AccountObj.add_transaction_balance, htb]
          · rw [AccountObj.add_transaction_transactions, hft]
          · rw [AccountObj.add_transaction_transactions, htt]
  · intro e he
    cases hv : tr.validate with
    | error msg =>
      refine ⟨msg, ?_⟩
      unfold TransferTransaction.process_transaction
      rw [hv]
    | ok u =>
      refine ⟨e, ?_⟩
      unfold TransferTransaction.process_transaction
      rw [hv, he]

/-- C1 witness: transferring 1000 from a SavingAccount at 6500 with floor
1000 to an ExpensesAccount at 3000 yields balances 5500 and 4000 with the
record booked on both sides; and with amount -5 from a plain account the
source withdraw raises and so does process_transaction. -/
theorem transfer_moves_amount_witness :
    ((AccountObj.saving ⟨⟨1, 5500, "p1", "Ane", [⟨TransKind.transfer, 1000⟩]⟩, 1000⟩).balance =
        (AccountObj.saving ⟨⟨1, 6500, "p1", "Ane", []⟩, 1000⟩).balance - (1000 : Int) ∧
      (AccountObj.expenses ⟨⟨2, 4000, "p2", "Esther", [⟨TransKind.transfer, 1000⟩]⟩, 2000, 0⟩).balance =
        (AccountObj.expenses ⟨⟨2, 3000, "p2", "Esther", []⟩, 2000, 0⟩).balance + (1000 : Int) ∧
      (AccountObj.saving ⟨⟨1, 5500, "p1", "Ane", [⟨TransKind.transfer, 1000⟩]⟩, 1000⟩).transactions =
        (AccountObj.saving ⟨⟨1, 6500, "p1", "Ane", []⟩, 1000⟩).transactions ++
          [TransferTransaction.toRecord ⟨1000⟩] ∧
      (AccountObj.expenses ⟨⟨2, 4000, "p2", "Esther", [⟨TransKind.transfer, 1000⟩]⟩, 2000, 0⟩).transactions =
        (AccountObj.expenses ⟨⟨2, 3000, "p2", "Esther", []⟩, 2000, 0⟩).transactions ++
          [TransferTransaction.toRecord ⟨1000⟩]) ∧
      (∃ msg, TransferTransaction.process_transaction ⟨-5⟩
        (AccountObj.plain ⟨1, 10, "pw", "holder", []⟩)
        (AccountObj.plain ⟨2, 20, "pw", "holder", []⟩) = .error msg) :=
  ⟨(transfer_moves_amount ⟨1000⟩
      (AccountObj.saving ⟨⟨1, 6500, "p1", "Ane", []⟩, 1000⟩)
      (AccountObj.expenses ⟨⟨2, 3000, "p2", "Esther", []⟩, 2000, 0⟩)).1
      (AccountObj.saving ⟨⟨1, 5500, "p1", "Ane", [⟨TransKind.transfer, 1000⟩]⟩, 1000⟩)
      (AccountObj.expenses ⟨⟨2, 4000, "p2", "Esther", [⟨TransKind.transfer, 1000⟩]⟩, 2000, 0⟩)
      (by decide),
   (transfer_moves_amount ⟨-5⟩
      (AccountObj.plain ⟨1, 10, "pw", "holder", []⟩)
      (AccountObj.plain ⟨2, 20, "pw", "holder", []⟩)).2
      "Amount must be positive" (by decide)⟩

/-- C10: when the same account object is both the source and the
destination of a TransferTransaction and processing succeeds, the final
balance equals the initial one and the record is appended to the one
history twice. -/
theorem transfer_self_balance_history (tr : TransferTransaction)
    (acc acc' : AccountObj) (h : tr.process_transaction_self acc = .ok acc') :
    acc'.balance = acc.balance ∧
      acc'.transactions = acc.transactions ++ [tr.toRecord, tr.toRecord] := by
  unfold TransferTransaction.process_transaction_self at h
  split at h
  · exact absurd h (by simp)
  · split at h
    · exact absurd h (by simp)
    · rename_i a₁ h₁
      split at h
      · exact absurd h (by simp)
      · rename_i a₂ h₂
        injection h with h
        subst h
        obtain ⟨hb₁, ht₁, _⟩ := AccountObj.withdraw_ok_obj acc a₁ tr.amount h₁
        obtain ⟨hb₂, ht₂⟩ := AccountObj.deposit_ok_obj a₁ a₂ tr.amount h₂
        constructor
        · rw [AccountObj.add_transaction_balance, AccountObj.add_transaction_balance,
            hb₂, hb₁]
          omega
        · rw [AccountObj.add_transaction_transactions, AccountObj.add_transaction_transactions,
            ht₂, ht₁]
          simp

/-- C10 witness: a self-transfer of 500 on a plain account at balance 1000
succeeds, keeps the balance at 1000 and books the record twice. -/
theorem transfer_self_balance_history_witness :
    (AccountObj.plain ⟨1, 1000, "pw", "holder",
        [⟨TransKind.transfer, 500⟩, ⟨TransKind.transfer, 500⟩]⟩).balance =
      (AccountObj.plain ⟨1, 1000, "pw", "holder", []⟩).balance ∧
      (AccountObj.plain ⟨1, 1000, "pw", "holder",
          [⟨TransKind.transfer, 500⟩, ⟨TransKind.transfer, 500⟩]⟩).transactions =
        (AccountObj.plain ⟨1, 1000, "pw", "holder", []⟩).transactions ++
          [TransferTransaction.toRecord ⟨500⟩, TransferTransaction.toRecord ⟨500⟩] :=
  transfer_self_balance_history ⟨500⟩
    (AccountObj.plain ⟨1, 1000, "pw", "holder", []⟩)
    (AccountObj.plain ⟨1, 1000, "pw", "holder",
      [⟨TransKind.transfer, 500⟩, ⟨TransKind.transfer, 500⟩]⟩)
    (by decide)

/-! Helper lemmas about the budget dictionaries. -/

theorem dictGet_insert (d : List (String × Int)) (k k' : String) (v : Int) :
    dictGet? (dictInsert d k v) k' = if k = k' then some v else dictGet? d k' := by
  induction d with
  | nil => simp [dictInsert, dictGet?]
  | cons p rest ih =>
    obtain ⟨k₀, v₀⟩ := p
    simp only [dictInsert]
    split
    · rename_i h₀
      rw [h₀]
      simp only [dictGet?]
      by_cases h' : k = k' <;> simp [h']
    · rename_i h₀
      simp only [dictGet?, ih]
      by_cases h' : k₀ = k' <;> by_cases h'' : k = k' <;> simp_all

theorem dictGet_insert_isSome (d : List (String × Int)) (k k' : String) (v : Int) :
    (dictGet? (dictInsert d k v) k').isSome ↔ k = k' ∨ (dictGet? d k').isSome := by
  rw [dictGet_insert]
  by_cases h : k = k' <;> simp [h]

theorem BudgetManager.add_expense_ok_spec (m m' : BudgetManager) (c : String)
    (a : Int) (w : Bool) (h : m.add_expense c a = .ok (m', w)) :
    ∃ s limit, dictGet? m.spending c = some s ∧
      dictGet? m.category_limits c = some limit ∧
      m' = { m with spending := dictInsert m.spending c (s + a) } ∧
      w = decide (s + a > limit) := by
  unfold BudgetManager.add_expense at h
  split at h
  · exact absurd h (by simp)
  · rename_i s hs
    split at h
    · exact absurd h (by simp)
    · rename_i limit hlim
      injection h with h
      injection h with h1 h2
      exact ⟨s, limit, hs, hlim, h1.symm, h2.symm⟩

theorem BudgetManager.add_expense_present (m : BudgetManager) (c : String)
    (a s limit : Int) (hs : dictGet? m.spending c = some s)
    (hlim : dictGet? m.category_limits c = some limit) :
    m.add_expense c a =
      .ok ({ m with spending := dictInsert m.spending c (s + a) },
        decide (s + a > limit)) := by
  unfold BudgetManager.add_expense
  rw [hs, hlim]

theorem BudgetManager.add_expense_absent (m : BudgetManager) (c : String)
    (a : Int) (hs : dictGet? m.spending c = none) :
    m.add_expense c a = .error "Category not found" := by
  unfold BudgetManager.add_expense
  rw [hs]

/-- The key agreement invariant: the spending dict and the limits dict
hold exactly the same category keys. -/
def BudgetManager.sameKeys (m : BudgetManager) : Prop :=
  ∀ c, (dictGet? m.spending c).isSome ↔ (dictGet? m.category_limits c).isSome

theorem BudgetManager.sameKeys_applyOp (m : BudgetManager) (op : BudgetOp)
    (h : m.sameKeys) : (m.applyOp op).sameKeys := by
  cases op with
  | setLimit c l =>
    intro c'
    simp only [BudgetManager.applyOp, BudgetManager.set_budget_limit]
    rw [dictGet_insert_isSome, dictGet_insert_isSome]
    by_cases hc : c = c' <;> simp [hc, h c']
  | addExpense c a =>
    intro c'
    simp only [BudgetManager.applyOp]
    cases hr : m.add_expense c a with
    | error e => exact h c'
    | ok p =>
      obtain ⟨m', w⟩ := p
      obtain ⟨s, limit, hs, hlim, hm', hw⟩ :=
        BudgetManager.add_expense_ok_spec m m' c a w hr
      subst hm'
      dsimp only
      rw [dictGet_insert_isSome]
      by_cases hc : c = c'
      · subst hc
        simp [hlim]
      · simp [hc, h c']

theorem BudgetManager.sameKeys_runOps (m : BudgetManager) (ops : List BudgetOp)
    (h : m.sameKeys) : (m.runOps ops).sameKeys := by
  induction ops generalizing m with
  | nil => exact h
  | cons op rest ih =>
    exact ih (m.applyOp op) (BudgetManager.sameKeys_applyOp m op h)

theorem spending_key_runOps (m : BudgetManager) (ops : List BudgetOp) (c : String) :
    (dictGet? (m.runOps ops).spending c).isSome ↔
      (dictGet? m.spending c).isSome ∨ ∃ l, BudgetOp.setLimit c l ∈ ops := by
  induction ops generalizing m with
  | nil => simp [BudgetManager.runOps]
  | cons op rest ih =>
    simp only [BudgetManager.runOps]
    rw [ih]
    cases op with
    | setLimit c₀ l₀ =>
      simp only [BudgetManager.applyOp, BudgetManager.set_budget_limit, dictGet_insert_isSome,
        List.mem_cons, BudgetOp.setLimit.injEq]
      constructor
      · rintro (⟨hc | hsp⟩ | ⟨l, hl⟩)
        · exact Or.inr ⟨l₀, Or.inl ⟨hc.symm, rfl⟩⟩
        · exact Or.inl hsp
        · exact Or.inr ⟨l, Or.inr hl⟩
      · rintro (hsp | ⟨l, ⟨hc, hl⟩ | hl⟩)
        · exact Or.inl (Or.inr hsp)
        · exact Or.inl (Or.inl hc.symm)
        · exact Or.inr ⟨l, hl⟩
    | addExpense c₀ a₀ =>
      simp only [BudgetManager.applyOp]
      cases hr : m.add_expense c₀ a₀ with
      | error e =>
        simp only [List.mem_cons]
        constructor
        · rintro (hsp | ⟨l, hl⟩)
          · exact Or.inl hsp
          · exact Or.inr ⟨l, Or.inr hl⟩
        · rintro (hsp | ⟨l, hl | hl⟩)
          · exact Or.inl hsp
          · exact absurd hl (by simp)
          · exact Or.inr ⟨l, hl⟩
      | ok p =>
        obtain ⟨m', w⟩ := p
        obtain ⟨s, limit, hs, hlim, hm', hw⟩ :=
          BudgetManager.add_expense_ok_spec m m' c₀ a₀ w hr
        subst hm'
        dsimp only
        rw [dictGet_insert_isSome]
        simp only [List.mem_cons]
        constructor
        · rintro (⟨hc | hsp⟩ | ⟨l, hl⟩)
          · subst hc
            exact Or.inl (by rw [hs]; rfl)
          · exact Or.inl hsp
          · exact Or.inr ⟨l, Or.inr hl⟩
        · rintro (hsp | ⟨l, hl | hl⟩)
          · exact Or.inl (Or.inr hsp)
          · exact absurd hl (by simp)
          · exact Or.inr ⟨l, hl⟩

/-- C6 counterexample: setting the Food limit, spending 50, then calling
set_budget_limit on Food again drops the Food spend counter from 50 back
to 0, so the counter does not only ever increase. -/
theorem budget_spend_counter_cex :
    dictGet? (BudgetManager.initial.runOps
        [BudgetOp.setLimit "Food" 100, BudgetOp.addExpense "Food" 50]).spending "Food" =
      some 50 ∧
    dictGet? (BudgetManager.initial.runOps
        [BudgetOp.setLimit "Food" 100, BudgetOp.addExpense "Food" 50,
          BudgetOp.setLimit "Food" 100]).spending "Food" =
      some 0 := by
  exact ⟨by decide, by decide⟩

/-- C6 amended: a spend counter changes only through set_budget_limit,
which resets the counter of its category to 0 and leaves the others
unchanged, and through a successful add_expense, which adds the
(unvalidated, possibly negative) amount to the counter of its category
and leaves the others unchanged; in particular an add_expense with a
non-negative amount never decreases any counter, but a repeated
set_budget_limit resets one and a negative add_expense decreases one. -/
theorem budget_spend_counter_changes (m : BudgetManager) (c c' : String) (l a : Int) :
    dictGet? (m.set_budget_limit c l).spending c' =
        (if c = c' then some 0 else dictGet? m.spending c') ∧
    (∀ m' w, m.add_expense c a = .ok (m', w) →
        dictGet? m'.spending c' =
          if c = c' then (dictGet? m.spending c').map (· + a)
          else dictGet? m.spending c') ∧
    (∀ m' w s, m.add_expense c a = .ok (m', w) → 0 ≤ a →
        dictGet? m.spending c' = some s →
        ∃ s', dictGet? m'.spending c' = some s' ∧ s ≤ s') := by
  refine ⟨?_, ?_, ?_⟩
  · unfold BudgetManager.set_budget_limit
    exact dictGet_insert m.spending c c' 0
  · intro m' w h
    obtain ⟨s, limit, hs, hlim, hm', hw⟩ :=
      BudgetManager.add_expense_ok_spec m m' c a w h
    subst hm'
    dsimp only
    rw [dictGet_insert]
    by_cases hc : c = c'
    · subst hc
      rw [if_pos rfl, if_pos rfl, hs]
      rfl
    · rw [if_neg hc, if_neg hc]
  · intro m' w s h ha hsp
    obtain ⟨s₀, limit, hs₀, hlim, hm', hw⟩ :=
      BudgetManager.add_expense_ok_spec m m' c a w h
    subst hm'
    dsimp only
    by_cases hc : c = c'
    · subst hc
      rw [hs₀] at hsp
      injection hsp with hsp
      refine ⟨s₀ + a, ?_, by omega⟩
      rw [dictGet_insert, if_pos rfl]
    · refine ⟨s, ?_, le_refl s⟩
      rw [dictGet_insert, if_neg hc]
      exact hsp

/-- C6 witness on the manager holding Food limit 100, spend 20: a new
set_budget_limit on Food resets the spend entry to 0; add_expense of 30
moves the entry from 20 to 50; and 30 being non-negative, the entry did
not decrease. -/
theorem budget_spend_counter_changes_witness :
    dictGet? ((BudgetManager.mk [("Food", 100)] [("Food", 20)]).set_budget_limit
        "Food" 50).spending "Food" =
      (if "Food" = "Food" then some 0
       else dictGet? (BudgetManager.mk [("Food", 100)] [("Food", 20)]).spending "Food") ∧
    dictGet? (BudgetManager.mk [("Food", 100)] [("Food", 50)]).spending "Food" =
      (if "Food" = "Food"
       then (dictGet? (BudgetManager.mk [("Food", 100)] [("Food", 20)]).spending "Food").map
         (· + 30)
       else dictGet? (BudgetManager.mk [("Food", 100)] [("Food", 20)]).spending "Food") ∧
    (∃ s', dictGet? (BudgetManager.mk [("Food", 100)] [("Food", 50)]).spending "Food" =
        some s' ∧ (20 : Int) ≤ s') :=
  ⟨(budget_spend_counter_changes (BudgetManager.mk [("Food", 100)] [("Food", 20)])
      "Food" "Food" 50 30).1,
   (budget_spend_counter_changes (BudgetManager.mk [("Food", 100)] [("Food", 20)])
      "Food" "Food" 50 30).2.1
      (BudgetManager.mk [("Food", 100)] [("Food", 50)]) false (by decide),
   (budget_spend_counter_changes (BudgetManager.mk [("Food", 100)] [("Food", 20)])
      "Food" "Food" 50 30).2.2
      (BudgetManager.mk [("Food", 100)] [("Food", 50)]) false 20 (by decide)
      (by decide) (by decide)⟩

/-- C9: in every state reached from the fresh BudgetManager by a sequence
of set_budget_limit and add_expense calls, the spending dict and the
limits dict hold exactly the same category keys, and therefore the limit
lookup inside add_expense, performed after the membership check on the
spending dict, never raises KeyError. -/
theorem spending_limits_keys_agree (ops : List BudgetOp) (c : String) (a : Int) :
    ((dictGet? (BudgetManager.initial.runOps ops).spending c).isSome ↔
      (dictGet? (BudgetManager.initial.runOps ops).category_limits c).isSome) ∧
    (BudgetManager.initial.runOps ops).add_expense c a ≠ .error "KeyError" := by
  have hsk : (BudgetManager.initial.runOps ops).sameKeys :=
    BudgetManager.sameKeys_runOps BudgetManager.initial ops
      (fun c' => by simp [BudgetManager.initial, dictGet?])
  refine ⟨hsk c, ?_⟩
  intro hKE
  unfold BudgetManager.add_expense at hKE
  split at hKE
  · injection hKE with h
    exact absurd h (by decide)
  · rename_i s hs
    split at hKE
    · rename_i hlim
      have hsome : (dictGet? (BudgetManager.initial.runOps ops).category_limits c).isSome :=
        (hsk c).mp (by rw [hs]; rfl)
      rw [hlim] at hsome
      exact absurd hsome (by simp)
    · exact absurd hKE (by simp)

/-- C9 witness after one set_budget_limit call. -/
theorem spending_limits_keys_agree_witness :
    ((dictGet? (BudgetManager.initial.runOps
        [BudgetOp.setLimit "Food" 10]).spending "Food").isSome ↔
      (dictGet? (BudgetManager.initial.runOps
        [BudgetOp.setLimit "Food" 10]).category_limits "Food").isSome) ∧
    (BudgetManager.initial.runOps [BudgetOp.setLimit "Food" 10]).add_expense "Food" 3 ≠
      .error "KeyError" :=
  spending_limits_keys_agree [BudgetOp.setLimit "Food" 10] "Food" 3

/-- C7: against a state reached from the fresh manager, add_expense raises
UnknownCategory exactly when no set_budget_limit for the category occurred
in the call sequence (the error carries no new state, so the spend dict is
unchanged); when the category keys are present, add_expense succeeds,
adding the amount to the spend counter, and the warning flag is set
exactly when the new cumulative spend exceeds the limit, on every such
call; and whenever the category was set at least once, add_expense
succeeds, so an overrun never raises. -/
theorem add_expense_unknown_and_warning (ops : List BudgetOp) (c : String) (a : Int) :
    ((BudgetManager.initial.runOps ops).add_expense c a = .error "Category not found" ↔
      ∀ l, BudgetOp.setLimit c l ∉ ops) ∧
    (∀ s limit,
      dictGet? (BudgetManager.initial.runOps ops).spending c = some s →
      dictGet? (BudgetManager.initial.runOps ops).category_limits c = some limit →
      (BudgetManager.initial.runOps ops).add_expense c a =
        .ok ({ BudgetManager.initial.runOps ops with
                spending :=
                  dictInsert (BudgetManager.initial.runOps ops).spending c (s + a) },
          decide (s + a > limit))) ∧
    ((∃ l, BudgetOp.setLimit c l ∈ ops) →
      ∃ m' w, (BudgetManager.initial.runOps ops).add_expense c a = .ok (m', w)) := by
  have hsk : (BudgetManager.initial.runOps ops).sameKeys :=
    BudgetManager.sameKeys_runOps BudgetManager.initial ops
      (fun c' => by simp [BudgetManager.initial, dictGet?])
  have hkey : (dictGet? (BudgetManager.initial.runOps ops).spending c).isSome ↔
      ∃ l, BudgetOp.setLimit c l ∈ ops := by
    rw [spending_key_runOps]
    simp [BudgetManager.initial, dictGet?]
  refine ⟨?_, ?_, ?_⟩
  · constructor
    · intro herr l hl
      have hsome : (dictGet? (BudgetManager.initial.runOps ops).spending c).isSome :=
        hkey.mpr ⟨l, hl⟩
      obtain ⟨s, hs⟩ := Option.isSome_iff_exists.mp hsome
      obtain ⟨limit, hlim⟩ := Option.isSome_iff_exists.mp ((hsk c).mp hsome)
      rw [BudgetManager.add_expense_present (BudgetManager.initial.runOps ops)
        c a s limit hs hlim] at herr
      exact absurd herr (by simp)
    · intro hnone
      have hn : ¬ (dictGet? (BudgetManager.initial.runOps ops).spending c).isSome := by
        rw [hkey]
        rintro ⟨l, hl⟩
        exact hnone l hl
      rw [Option.not_isSome_iff_eq_none] at hn
      exact BudgetManager.add_expense_absent (BudgetManager.initial.runOps ops) c a hn
  · intro s limit hs hlim
    exact BudgetManager.add_expense_present (BudgetManager.initial.runOps ops)
      c a s limit hs hlim
  · rintro ⟨l, hl⟩
    have hsome := hkey.mpr ⟨l, hl⟩
    obtain ⟨s, hs⟩ := Option.isSome_iff_exists.mp hsome
    obtain ⟨limit, hlim⟩ := Option.isSome_iff_exists.mp ((hsk c).mp hsome)
    exact ⟨_, _, BudgetManager.add_expense_present (BudgetManager.initial.runOps ops)
      c a s limit hs hlim⟩

/-- C7 witness: with only a Food limit of 100 set, add_expense on Travel
raises UnknownCategory; add_expense of 150 on Food succeeds with the
warning flag set, since 150 exceeds 100; and the Food category being set,
add_expense of 30 on Food succeeds. -/
theorem add_expense_unknown_and_warning_witness :
    (BudgetManager.initial.runOps [BudgetOp.setLimit "Food" 100]).add_expense "Travel" 5 =
        .error "Category not found" ∧
      (BudgetManager.initial.runOps [BudgetOp.setLimit "Food" 100]).add_expense "Food" 150 =
        .ok ({ BudgetManager.initial.runOps [BudgetOp.setLimit "Food" 100] with
                spending :=
                  dictInsert (BudgetManager.initial.runOps
                    [BudgetOp.setLimit "Food" 100]).spending "Food" (0 + 150) },
          decide ((0 : Int) + 150 > 100)) ∧
      (∃ m' w, (BudgetManager.initial.runOps
          [BudgetOp.setLimit "Food" 100]).add_expense "Food" 30 = .ok (m', w)) :=
  ⟨(add_expense_unknown_and_warning [BudgetOp.setLimit "Food" 100] "Travel" 5).1.mpr
      (by
        intro l hl
        rw [List.mem_singleton] at hl
        injection hl with h1 h2
        exact absurd h1 (by decide)),
   (add_expense_unknown_and_warning [BudgetOp.setLimit "Food" 100] "Food" 150).2.1
      0 100 (by decide) (by decide),
   (add_expense_unknown_and_warning [BudgetOp.setLimit "Food" 100] "Food" 30).2.2
      ⟨100, by decide⟩⟩
